import Mathlib

/-!
Shallow embedding of the mb HTTP load generator (src/mb.c, src/net.h)
and verification of the specification claims about it.

Each definition mirrors one piece of the C source; line numbers refer
to src/src/mb.c unless stated otherwise. Machine integers are modelled
as Nat or Int with explicit reduction modulo a power of two where the C
arithmetic can wrap.
-/

namespace Mb

/-! ## Worker slice computation (thread_main, mb.c lines 786-789)

The C code computes, per worker thread id:
  connections_per_thread = (connections > cfg.threads) ? connections / cfg.threads : 1;
  cs_ptr_start = cs + connections_per_thread * id;
  cs_ptr_end   = (id == cfg.threads - 1) ? cs + connections : cs + connections_per_thread * (id + 1);
-/

/-- mb.c line 786: integer division, with a floor of one connection per
thread when there are at least as many threads as connections. -/
def connections_per_thread (connections threads : ℕ) : ℕ :=
  if threads < connections then connections / threads else 1

/-- mb.c line 788: index of the first connection of worker id. -/
def slice_start (connections threads id : ℕ) : ℕ :=
  connections_per_thread connections threads * id

/-- mb.c line 789: one past the index of the last connection of worker id;
the last worker takes everything up to the end of the array. -/
def slice_end (connections threads id : ℕ) : ℕ :=
  if id = threads - 1 then connections
  else connections_per_thread connections threads * (id + 1)

/-! ## Shutdown counter (threads_start line 852, requests_done lines 890-894)

run is a signed sig_atomic_t; threads_start sets it to the number of
connections before creating any worker, and requests_done decrements it
by one under a mutex. -/

/-- mb.c line 852: run = connections, executed before the pthread_create loop. -/
def threads_start_run_init (connections : ℕ) : ℤ := connections

/-- mb.c lines 890-894: the requests-done callback decrements run by one
(the mutex serialises the decrements, so the effect of k calls is the
k-fold iterate). -/
def requests_done (run : ℤ) : ℤ := run - 1

/-! ## Command-line validation (args_parse, mb.c lines 755-763)

After option parsing, args_parse rejects a ramp-up that is not strictly
below the duration, then rejects a missing input request file. Both
cfg.ramp_up and cfg.duration are uint64_t and already validated
nonnegative, so they are modelled as Nat. -/

/-- Diagnostic printed by mb.c line 756. -/
def ramp_up_error_msg : String := "ramp-up time >= test duration"

/-- Diagnostic printed by mb.c line 761. -/
def file_req_error_msg : String := "need to specify an input requests file"

/-- mb.c lines 755-763: the final validation of the parsed configuration. -/
def args_parse_validate (ramp_up duration : ℕ) (file_req : Option String) :
    Except String Unit :=
  if duration ≤ ramp_up then .error ramp_up_error_msg
  else if file_req = none then .error file_req_error_msg
  else .ok ()

/-! ## Per-connection delayed flag (thread_main, mb.c line 806; net.h line 105)

net.h declares `bool delayed`; mb.c executes `cs_ptr->delayed = cs_ptr->delay_max`,
so the C bool conversion stores whether delay_max is nonzero. -/

/-- The two connection fields involved in the setup loop of thread_main. -/
structure DelayConn where
  delay_max : ℕ
  delayed : Bool
  deriving DecidableEq

/-- mb.c line 806: `cs_ptr->delayed = cs_ptr->delay_max`; assigning a
uint64_t to a C bool stores whether the value is nonzero. -/
def thread_main_setup (c : DelayConn) : DelayConn :=
  { c with delayed := c.delay_max != 0 }

/-! ## format_bytes (mb.c lines 147-160)

The C code repeatedly divides a long double by 1024 while it exceeds
1024, advancing a pointer into the IEC suffix table (stopping the
pointer at the terminating NULL). For the byte counts the program
passes (integers below 2^64, and rates below 2^90) every division by
1024 is exact in the 64-bit-mantissa long double, so the arithmetic is
modelled over the rationals. The C while loop needs at most seven
iterations for such inputs; the Lean recursion carries a fuel of 64,
far more than any representable input can consume. -/

/-- mb.c line 148: the suffix table (without the terminating NULL). -/
def fb_suffixes : List String :=
  ["B", "kiB", "MiB", "GiB", "TiB", "PiB", "EiB", "ZiB", "YiB"]

/-- mb.c lines 152-155: the division loop. The second component is the
offset of the suffix pointer from the start of the table; the pointer
advances only while it has not reached the terminating NULL (mirrors
the `if (*suffix_ptr) suffix_ptr++` guard). -/
def format_bytes_go : ℕ → ℚ → ℕ → ℚ × ℕ
  | 0, n, p => (n, p)
  | fuel + 1, n, p =>
    if 1024 < n then
      format_bytes_go fuel (n / 1024) (if p < fb_suffixes.length then p + 1 else p)
    else (n, p)

/-- mb.c lines 147-160: the printed mantissa and the suffix index. -/
def format_bytes (n : ℚ) : ℚ × ℕ := format_bytes_go 64 n 0

/-! ## stats_print aggregation (mb.c lines 163-190)

The exit statistics loop over the connection array and sum three uint64
per-connection counters into uint64 accumulators; wrap-around is the
C modular arithmetic. -/

/-- The per-connection cstats counters read by stats_print (net.h lines 115-117). -/
structure CStats where
  reqs_total : ℕ
  written_total : ℕ
  read_total : ℕ
  deriving DecidableEq

/-- mb.c lines 173-177: the accumulation loop of stats_print, with
uint64 wrap-around made explicit. -/
def stats_print_loop : List CStats → ℕ → ℕ → ℕ → ℕ × ℕ × ℕ
  | [], reqs, sent, recv => (reqs, sent, recv)
  | c :: rest, reqs, sent, recv =>
    stats_print_loop rest ((reqs + c.reqs_total) % 2 ^ 64)
      ((sent + c.written_total) % 2 ^ 64) ((recv + c.read_total) % 2 ^ 64)

/-- mb.c lines 163-190: the three totals printed at exit as Hits, Sent
and Recv (accumulators start at zero, lines 166-168). -/
def stats_print_totals (cs : List CStats) : ℕ × ℕ × ℕ :=
  stats_print_loop cs 0 0 0

/-! ## JSON template model (json_process_connection and helpers)

The parsed JSON values the loader inspects are strings, integers,
booleans and objects; a template is the ordered list of key/value pairs
of one array element. -/

/-- The JSON value shapes consumed by the loader. -/
inductive JVal where
  | jstr (s : String)
  | jint (n : ℤ)
  | jbool (b : Bool)
  | jobj
  deriving DecidableEq

/-- Reduction of a json int64 to a signed 32-bit C int, as performed by
the stores into int fields (two-complement wrap). -/
def wrap32 (n : ℤ) : ℤ := (n + 2 ^ 31) % 2 ^ 32 - 2 ^ 31

/-! ### Body processing (json_process_connection_body, mb.c lines 314-353) -/

/-- net.h lines 66-69: request body type. -/
inductive ReqBodyType where
  | body_content
  | body_random
  deriving DecidableEq

/-- The connection fields touched by json_process_connection_body
(net.h lines 122-125); req_body_size is a uint64_t. -/
structure BodyConn where
  req_body : Option String
  req_body_type : ReqBodyType
  req_body_size : ℕ
  deriving DecidableEq

/-- Modelled from the spec: connection_init (net.c, which is not under
src/) sets the template defaults before any key is processed; per the
data model there is no body content, the type is content and the size
is zero. -/
def connection_init_body : BodyConn :=
  { req_body := none, req_body_type := .body_content, req_body_size := 0 }

/-- Diagnostic of mb.c line 350 (paraphrased). -/
def body_size_zero_msg : String :=
  "body.size cannot be 0 when body random type is specified"

/-- mb.c lines 320-341: the key loop of json_process_connection_body.
Assigning the json integer to the uint64_t req_body_size reduces it
modulo 2^64. -/
def json_body_loop : List (String × JVal) → BodyConn → Except String BodyConn
  | [], c => .ok c
  | (k, v) :: rest, c =>
    if k = "content" then
      match v with
      | .jstr s => json_body_loop rest { c with req_body := some s }
      | _ => .error "string expected for body.content"
    else if k = "size" then
      match v with
      | .jint n => json_body_loop rest { c with req_body_size := (n % (2 : ℤ) ^ 64).toNat }
      | _ => .error "integer expected for body.size"
    else if k = "type" then
      match v with
      | .jstr s =>
        if s = "random" then json_body_loop rest { c with req_body_type := .body_random }
        else if s = "content" then json_body_loop rest { c with req_body_type := .body_content }
        else .error "invalid body type"
      | _ => .error "string expected for body.type"
    else .error "invalid input request file, unknown body key"

/-- mb.c lines 314-353: full body processing; the boolean records
whether the warning about a discarded body.content was emitted
(lines 343-352: the content is freed with a warning before the
body.size check fires). -/
def json_process_connection_body (kvs : List (String × JVal)) (c₀ : BodyConn) :
    Except String (BodyConn × Bool) :=
  match json_body_loop kvs c₀ with
  | .error e => .error e
  | .ok c =>
    if c.req_body_type = .body_random then
      let warned := c.req_body.isSome
      let c₁ := { c with req_body := none }
      if c₁.req_body_size = 0 then .error body_size_zero_msg
      else .ok (c₁, warned)
    else .ok (c, false)

/-! ### The clients field (json_process_connection lines 517-521,
json_process_connections lines 573-575)

json_process_connection stores the json int64 in the 32-bit C int
clients (mb.c line 405 declares it int, so the store wraps) and rejects
only stored values above MB_MAX_CLIENTS; the stored value is the return
code, and the caller treats a negative return as a fatal invalid-file
error. The MB_MAX_CLIENTS constant lives in mb.h (not under src/), so
the model is parametric in it. -/

/-- mb.c lines 517-521: the clients key check inside
json_process_connection; the json integer is first narrowed by the
store into the 32-bit int. -/
def json_connection_clients_check (maxClients clients : ℤ) : Except String ℤ :=
  if maxClients < wrap32 clients then .error "too many clients specified for a request"
  else .ok (wrap32 clients)

/-- mb.c lines 573-575: json_process_connections dies when the return
value of json_process_connection is negative. -/
def json_connections_clients (maxClients clients : ℤ) : Except String ℤ :=
  match json_connection_clients_check maxClients clients with
  | .error e => .error e
  | .ok ret => if ret < 0 then .error "invalid input request file (array)" else .ok ret

/-! ### Host/port validation (json_process_connection lines 484-486 and 530-536) -/

/-- The connection fields involved in the mandatory host/port checks
(net.h lines 88-89); port is a C int. -/
structure TargetConn where
  host : Option String
  port : ℤ
  deriving DecidableEq

/-- Modelled from the spec: connection_init (net.c, not under src/)
zeroes the target fields, so an omitted port leaves port = 0. -/
def connection_init_target : TargetConn := { host := none, port := 0 }

/-- mb.c lines 484-486: the port key stores the json integer into the C int. -/
def json_connection_set_port (c : TargetConn) (v : ℤ) : TargetConn :=
  { c with port := wrap32 v }

/-- Diagnostic of mb.c line 531. -/
def host_not_defined_msg : String := "invalid input request file, host not defined"

/-- Diagnostic of mb.c line 535. -/
def port_not_defined_msg : String := "invalid input request file, port not defined"

/-- mb.c lines 530-536: the mandatory checks after the key loop; a
missing host dies first, then a zero port dies. -/
def json_connection_final_checks (c : TargetConn) : Except String TargetConn :=
  if c.host = none then .error host_not_defined_msg
  else if c.port = 0 then .error port_not_defined_msg
  else .ok c

/-! ### Random-body seeds (request_initialize_body_random line 612,
json_process_connection line 455, json_process_connections line 589)

request_initialize_body_random(c, i) seeds the generator with
state = i * 2. For the primary connection of a template the call site
(line 455) passes the loop index of the "body" key inside the JSON
object of that template, not the index of the template in the array;
for the (j-th) duplicate the call site (line 589) passes the sibling
index j (1 <= j < clients). -/

/-- mb.c line 612: the 128-bit seed handed to mcg64_seed. -/
def request_initialize_body_random_seed (i : ℕ) : ℕ := i * 2

/-- mb.c lines 417-455: the loop index at which the body key of a
template is processed (the position of "body" among the object keys;
for a well-formed JSON object the key occurs once). -/
def body_key_index (kvs : List (String × JVal)) : Option ℕ :=
  List.findIdx? (fun kv => kv.1 = "body") kvs

/-- mb.c line 455: the seed of the primary connection of a template
with a random body. -/
def primary_body_seed (kvs : List (String × JVal)) : Option ℕ :=
  (body_key_index kvs).map request_initialize_body_random_seed

/-- mb.c line 589: the seed of the j-th duplicate sibling (1 <= j < clients). -/
def duplicate_body_seed (j : ℕ) : ℕ := request_initialize_body_random_seed j

/-! ## Theorems -/

/-- Under the cap of threads_start (threads at most connections), the
per-thread slice width computed by thread_main is the floor of C / T. -/
theorem connections_per_thread_eq (C T : ℕ) (hT : 0 < T) (hTC : T ≤ C) :
    connections_per_thread C T = C / T := by
  unfold connections_per_thread
  rcases lt_or_eq_of_le hTC with h | h
  · rw [if_pos h]
  · rw [if_neg (by omega), ← h, Nat.div_self hT]

/-- Consecutive worker slices meet end-to-start. -/
theorem slice_end_le_slice_start (C T a b : ℕ) (hab : a < b) (hb : b < T) :
    slice_end C T a ≤ slice_start C T b := by
  unfold slice_end slice_start
  rw [if_neg (by omega)]
  exact Nat.mul_le_mul_left _ (by omega)

/-- C2, counterexample: for C = 5 connections and T = 3 workers, the end
of the slice of worker 1 is 2, not floor((1+1)*5/3) = 3, so the claimed
formula floor((i+1)*C/T) does not describe the code. -/
theorem claim2_counterexample : slice_end 5 3 1 ≠ ((1 + 1) * 5) / 3 := by decide

/-- C2 (amended): with workers capped at the connection count, worker i
owns connections [i * floor(C/T), (i+1) * floor(C/T)) for i before the
last, and the last worker runs to the end of the array; the slices are
pairwise disjoint and cover all C connections. -/
theorem claim2_worker_slices (C T : ℕ) (hT : 0 < T) (hTC : T ≤ C) :
    (∀ i, slice_start C T i = i * (C / T)) ∧
    (∀ i, i + 1 < T → slice_end C T i = (i + 1) * (C / T)) ∧
    slice_end C T (T - 1) = C ∧
    ∀ x, x < C → ∃! i, i < T ∧ slice_start C T i ≤ x ∧ x < slice_end C T i := by
  have hcpt := connections_per_thread_eq C T hT hTC
  have hpos : 0 < C / T := Nat.div_pos hTC hT
  refine ⟨fun i => by rw [slice_start, hcpt, Nat.mul_comm], ?_, ?_, ?_⟩
  · intro i hi
    rw [slice_end, if_neg (by omega), hcpt, Nat.mul_comm]
  · rw [slice_end, if_pos rfl]
  · intro x hx
    have hmem : ∀ i, i < T → (slice_start C T i ≤ x ∧ x < slice_end C T i ↔
        (i * (C / T) ≤ x ∧ (i = T - 1 ∨ x < (i + 1) * (C / T)))) := by
      intro i hi
      rw [slice_start, slice_end, hcpt, Nat.mul_comm]
      by_cases hlast : i = T - 1
      · rw [if_pos hlast]
        constructor
        · rintro ⟨h1, _⟩; exact ⟨h1, Or.inl hlast⟩
        · rintro ⟨h1, _⟩; exact ⟨h1, hx⟩
      · rw [if_neg hlast]
        constructor
        · rintro ⟨h1, h2⟩; exact ⟨h1, Or.inr (by rw [Nat.mul_comm] at h2; exact h2)⟩
        · rintro ⟨h1, h2⟩
          rcases h2 with h2 | h2
          · exact absurd h2 hlast
          · exact ⟨h1, by rw [Nat.mul_comm]; exact h2⟩
    -- the worker that owns x
    refine ⟨min (x / (C / T)) (T - 1), ⟨by omega, ?_⟩, ?_⟩
    · rcases le_or_lt (T - 1) (x / (C / T)) with hcase | hcase
      · rw [min_eq_right hcase, hmem _ (by omega)]
        refine ⟨?_, Or.inl rfl⟩
        calc (T - 1) * (C / T) ≤ x / (C / T) * (C / T) :=
              Nat.mul_le_mul_right _ hcase
          _ ≤ x := Nat.div_mul_le_self x (C / T)
      · rw [min_eq_left (by omega), hmem _ (by omega)]
        refine ⟨Nat.mul_comm (x / (C / T)) (C / T) ▸ Nat.mul_div_le x (C / T), ?_⟩
        right
        exact (Nat.div_lt_iff_lt_mul hpos).mp (Nat.lt_succ_self _)
    · intro j hj
      by_contra hne
      rcases Nat.lt_or_ge j (min (x / (C / T)) (T - 1)) with hlt | hge
      · have := slice_end_le_slice_start C T j (min (x / (C / T)) (T - 1)) hlt (by omega)
        have hjmem := hj.2.2
        have himem : slice_start C T (min (x / (C / T)) (T - 1)) ≤ x := by
          rw [slice_start, hcpt]
          rcases le_or_lt (T - 1) (x / (C / T)) with hcase | hcase
          · rw [min_eq_right hcase]
            calc C / T * (T - 1) ≤ C / T * (x / (C / T)) :=
                  Nat.mul_le_mul_left _ hcase
              _ = x / (C / T) * (C / T) := Nat.mul_comm _ _
              _ ≤ x := Nat.div_mul_le_self x (C / T)
          · rw [min_eq_left (by omega)]
            exact Nat.mul_div_le x (C / T)
        omega
      · have hgt : min (x / (C / T)) (T - 1) < j := by omega
        have := slice_end_le_slice_start C T (min (x / (C / T)) (T - 1)) j hgt hj.1
        have hjmem := hj.2.1
        have himem : x < slice_end C T (min (x / (C / T)) (T - 1)) := by
          rw [slice_end, hcpt]
          rcases le_or_lt (T - 1) (x / (C / T)) with hcase | hcase
          · rw [min_eq_right hcase, if_pos rfl]; exact hx
          · rw [min_eq_left (by omega), if_neg (by omega)]
            rw [Nat.mul_comm]
            exact (Nat.div_lt_iff_lt_mul hpos).mp (Nat.lt_succ_self _)
        omega

/-- C2, witness for the amended theorem at C = 5, T = 3. -/
theorem claim2_worker_slices_witness :
    0 < 3 ∧ 3 ≤ 5 ∧
      ((∀ i, slice_start 5 3 i = i * (5 / 3)) ∧
       (∀ i, i + 1 < 3 → slice_end 5 3 i = (i + 1) * (5 / 3)) ∧
       slice_end 5 3 (3 - 1) = 5 ∧
       ∀ x, x < 5 → ∃! i, i < 3 ∧ slice_start 5 3 i ≤ x ∧ x < slice_end 5 3 i) :=
  ⟨by norm_num, by norm_num, claim2_worker_slices 5 3 (by norm_num) (by norm_num)⟩

/-- C5: the run counter starts at the connection count (set before any
worker is created) and each requests-done callback subtracts exactly
one, so after k callbacks the counter is connections - k. -/
theorem claim5_run_counter (connections k : ℕ) :
    requests_done^[k] (threads_start_run_init connections) = (connections : ℤ) - k := by
  induction k with
  | zero => simp [threads_start_run_init]
  | succ m ih =>
    rw [Function.iterate_succ_apply', ih, requests_done]
    push_cast
    ring

/-- C7: args_parse fails with the ramp-up usage error exactly when the
global ramp-up reaches or exceeds the duration; when ramp-up is below
the duration this check passes (any later failure is a different error). -/
theorem claim7_ramp_up_check (ramp_up duration : ℕ) (file_req : Option String) :
    (duration ≤ ramp_up →
      args_parse_validate ramp_up duration file_req = .error ramp_up_error_msg) ∧
    (ramp_up < duration →
      args_parse_validate ramp_up duration file_req ≠ .error ramp_up_error_msg) := by
  constructor
  · intro h
    rw [args_parse_validate, if_pos h]
  · intro h
    rw [args_parse_validate, if_neg (by omega)]
    by_cases hf : file_req = none
    · rw [if_pos hf]
      intro hcontra
      have : file_req_error_msg = ramp_up_error_msg := by injection hcontra
      simp [file_req_error_msg, ramp_up_error_msg] at this
    · rw [if_neg hf]
      intro hcontra
      injection hcontra

/-- C7, witness: ramp-up 5 with duration 3 is rejected, ramp-up 2 with
duration 5 passes the ramp-up check. -/
theorem claim7_ramp_up_check_witness :
    args_parse_validate 5 3 none = .error ramp_up_error_msg ∧
      args_parse_validate 2 5 (some "requests.json") ≠ .error ramp_up_error_msg :=
  ⟨(claim7_ramp_up_check 5 3 none).1 (by norm_num),
   (claim7_ramp_up_check 2 5 (some "requests.json")).2 (by norm_num)⟩

/-- C8: after the setup loop of thread_main, delayed is true exactly
when delay_max is nonzero, and two connections with nonzero delay_max
get the same delayed flag regardless of the numeric values. -/
theorem claim8_delayed_flag (c : DelayConn) :
    ((thread_main_setup c).delayed = true ↔ c.delay_max ≠ 0) ∧
    (∀ c₂ : DelayConn, c.delay_max ≠ 0 → c₂.delay_max ≠ 0 →
      (thread_main_setup c).delayed = (thread_main_setup c₂).delayed) := by
  constructor
  · simp [thread_main_setup]
  · intro c₂ h1 h2
    have e1 : (c.delay_max != 0) = true := by simpa using h1
    have e2 : (c₂.delay_max != 0) = true := by simpa using h2
    simp [thread_main_setup, e1, e2]

/-- C8, witness: delay_max values 5 and 7 produce the same delayed flag. -/
theorem claim8_delayed_flag_witness :
    (thread_main_setup ⟨5, false⟩).delayed = (thread_main_setup ⟨7, true⟩).delayed :=
  (claim8_delayed_flag ⟨5, false⟩).2 ⟨7, true⟩ (by norm_num) (by norm_num)

/-- C10: a template with host defined and a port key of value 0 dies at
the port-not-defined check, and the outcome is identical to that of a
template whose port key is omitted (the connection_init default 0). -/
theorem claim10_port_zero (c : TargetConn) (h : c.host ≠ none) :
    json_connection_final_checks (json_connection_set_port c 0) =
        .error port_not_defined_msg ∧
    json_connection_final_checks (json_connection_set_port c 0) =
      json_connection_final_checks { c with port := connection_init_target.port } := by
  have hw : wrap32 0 = 0 := by norm_num [wrap32]
  have heq : json_connection_set_port c 0 = { c with port := connection_init_target.port } := by
    simp [json_connection_set_port, hw, connection_init_target]
  constructor
  · rw [json_connection_final_checks, json_connection_set_port, hw]
    simp [h]
  · rw [heq]

/-- C10, witness: a stock template targeting example.com with port 0. -/
theorem claim10_port_zero_witness :
    (TargetConn.mk (some "example.com") 80).host ≠ none ∧
      (json_connection_final_checks
          (json_connection_set_port (TargetConn.mk (some "example.com") 80) 0) =
            .error port_not_defined_msg ∧
       json_connection_final_checks
          (json_connection_set_port (TargetConn.mk (some "example.com") 80) 0) =
        json_connection_final_checks
          { TargetConn.mk (some "example.com") 80 with port := connection_init_target.port }) :=
  ⟨by simp, claim10_port_zero (TargetConn.mk (some "example.com") 80) (by simp)⟩

/-- C3, counterexample: clients = 0 lies outside the claimed accepted
range 1..MAX_CLIENTS, yet the loader accepts it without any fatal
error, and a json value of 2^32 exceeds MAX_CLIENTS yet wraps to the
stored int 0 and is accepted as well (shown with MAX_CLIENTS = 1024). -/
theorem claim3_counterexample :
    (¬(1 ≤ (0 : ℤ)) ∧ json_connections_clients 1024 0 = .ok 0) ∧
    ((1024 : ℤ) < 2 ^ 32 ∧ json_connections_clients 1024 (2 ^ 32) = .ok 0) := by
  refine ⟨⟨by norm_num, ?_⟩, by norm_num, ?_⟩ <;>
    norm_num [json_connections_clients, json_connection_clients_check, wrap32]

/-- C3 (amended): the loader stores the json clients value into a
32-bit int and fails fatally when the stored value is above MAX_CLIENTS
(direct check) or below zero (negative return value caught by
json_process_connections); any stored value between 0 and MAX_CLIENTS,
including 0, passes validation. -/
theorem claim3_clients_check (maxClients clients : ℤ) :
    ((∃ e, json_connections_clients maxClients clients = .error e) ↔
      maxClients < wrap32 clients ∨ wrap32 clients < 0) ∧
    (0 ≤ wrap32 clients → wrap32 clients ≤ maxClients →
      json_connections_clients maxClients clients = .ok (wrap32 clients)) := by
  constructor
  · rw [json_connections_clients, json_connection_clients_check]
    by_cases h1 : maxClients < wrap32 clients
    · simp [h1]
    · rw [if_neg h1]
      by_cases h2 : wrap32 clients < 0
      · simp [h2]
      · simp [h1, h2]
  · intro h1 h2
    have g1 : ¬maxClients < wrap32 clients := not_lt.2 h2
    have g2 : ¬wrap32 clients < 0 := not_lt.2 h1
    simp [json_connections_clients, json_connection_clients_check, g1, g2]

/-- C3, witness: clients = 5 (stored unchanged by the int narrowing)
with MAX_CLIENTS = 1024 is accepted. -/
theorem claim3_clients_check_witness :
    (0 : ℤ) ≤ wrap32 5 ∧ wrap32 5 ≤ 1024 ∧
      json_connections_clients 1024 5 = .ok (wrap32 5) :=
  ⟨by norm_num [wrap32], by norm_num [wrap32],
    (claim3_clients_check 1024 5).2 (by norm_num [wrap32]) (by norm_num [wrap32])⟩

/-- The stats_print accumulation loop computes the shifted sums of the
three counters as long as no uint64 accumulator wraps. -/
theorem stats_print_loop_eq (cs : List CStats) : ∀ reqs sent recv : ℕ,
    reqs + (cs.map CStats.reqs_total).sum < 2 ^ 64 →
    sent + (cs.map CStats.written_total).sum < 2 ^ 64 →
    recv + (cs.map CStats.read_total).sum < 2 ^ 64 →
    stats_print_loop cs reqs sent recv =
      (reqs + (cs.map CStats.reqs_total).sum,
       sent + (cs.map CStats.written_total).sum,
       recv + (cs.map CStats.read_total).sum) := by
  induction cs with
  | nil => intro reqs sent recv _ _ _; simp [stats_print_loop]
  | cons c rest ih =>
    intro reqs sent recv h1 h2 h3
    simp only [List.map_cons, List.sum_cons] at h1 h2 h3
    rw [stats_print_loop, Nat.mod_eq_of_lt (by omega), Nat.mod_eq_of_lt (by omega),
      Nat.mod_eq_of_lt (by omega), ih _ _ _ (by omega) (by omega) (by omega)]
    simp only [List.map_cons, List.sum_cons, Prod.mk.injEq]
    omega

/-- The loop shifted-sum lemma needs a closed instance for the audit. -/
theorem stats_print_loop_eq_witness :
    (1 : ℕ) + ([(⟨3, 100, 200⟩ : CStats)].map CStats.reqs_total).sum < 2 ^ 64 ∧
    (2 : ℕ) + ([(⟨3, 100, 200⟩ : CStats)].map CStats.written_total).sum < 2 ^ 64 ∧
    (3 : ℕ) + ([(⟨3, 100, 200⟩ : CStats)].map CStats.read_total).sum < 2 ^ 64 ∧
    stats_print_loop [(⟨3, 100, 200⟩ : CStats)] 1 2 3 =
      (1 + ([(⟨3, 100, 200⟩ : CStats)].map CStats.reqs_total).sum,
       2 + ([(⟨3, 100, 200⟩ : CStats)].map CStats.written_total).sum,
       3 + ([(⟨3, 100, 200⟩ : CStats)].map CStats.read_total).sum) :=
  ⟨by norm_num, by norm_num, by norm_num,
    stats_print_loop_eq [⟨3, 100, 200⟩] 1 2 3 (by norm_num) (by norm_num) (by norm_num)⟩

/-- C4: as long as the uint64 totals do not wrap, the Hits, Sent and
Recv figures printed at exit are exactly the sums over all connections
of cstats.reqs_total, cstats.written_total and cstats.read_total. -/
theorem claim4_stats_totals (cs : List CStats)
    (h1 : (cs.map CStats.reqs_total).sum < 2 ^ 64)
    (h2 : (cs.map CStats.written_total).sum < 2 ^ 64)
    (h3 : (cs.map CStats.read_total).sum < 2 ^ 64) :
    stats_print_totals cs =
      ((cs.map CStats.reqs_total).sum, (cs.map CStats.written_total).sum,
       (cs.map CStats.read_total).sum) := by
  rw [stats_print_totals,
    stats_print_loop_eq cs 0 0 0 (by omega) (by omega) (by omega)]
  simp

/-- C4, witness: two connections with small counters. -/
theorem claim4_stats_totals_witness :
    (([⟨3, 100, 200⟩, ⟨4, 50, 60⟩] : List CStats).map CStats.reqs_total).sum < 2 ^ 64 ∧
    (([⟨3, 100, 200⟩, ⟨4, 50, 60⟩] : List CStats).map CStats.written_total).sum < 2 ^ 64 ∧
    (([⟨3, 100, 200⟩, ⟨4, 50, 60⟩] : List CStats).map CStats.read_total).sum < 2 ^ 64 ∧
    stats_print_totals [⟨3, 100, 200⟩, ⟨4, 50, 60⟩] =
      ((([⟨3, 100, 200⟩, ⟨4, 50, 60⟩] : List CStats).map CStats.reqs_total).sum,
       (([⟨3, 100, 200⟩, ⟨4, 50, 60⟩] : List CStats).map CStats.written_total).sum,
       (([⟨3, 100, 200⟩, ⟨4, 50, 60⟩] : List CStats).map CStats.read_total).sum) :=
  ⟨by norm_num, by norm_num, by norm_num,
    claim4_stats_totals [⟨3, 100, 200⟩, ⟨4, 50, 60⟩] (by norm_num) (by norm_num) (by norm_num)⟩

/-- C6: for a template whose processed body ends with the random type,
a zero body size (in particular the connection_init default when the
size key is absent) is a fatal load error, and on success any
body.content that was provided has been discarded (req_body is cleared)
with the warning emitted. -/
theorem claim6_body_random (kvs : List (String × JVal)) (c₀ c₁ : BodyConn)
    (h : json_body_loop kvs c₀ = .ok c₁)
    (hr : c₁.req_body_type = .body_random) :
    (c₁.req_body_size = 0 →
      json_process_connection_body kvs c₀ = .error body_size_zero_msg) ∧
    (∀ c₂ w, json_process_connection_body kvs c₀ = .ok (c₂, w) →
      c₂.req_body = none ∧ (c₁.req_body.isSome → w = true)) := by
  constructor
  · intro hs
    rw [json_process_connection_body, h]
    simp [hr, hs]
  · intro c₂ w hok
    rw [json_process_connection_body, h] at hok
    simp only [hr, if_pos] at hok
    by_cases hs : c₁.req_body_size = 0
    · simp [hs] at hok
    · simp [hs] at hok
      refine ⟨?_, ?_⟩
      · rw [← hok.1]
      · intro hsome
        rw [← hok.2, hsome]

/-- C6, witness: a random body with content and no size dies with the
body size diagnostic, and the content would have been discarded. -/
theorem claim6_body_random_witness :
    json_body_loop [("type", JVal.jstr "random"), ("content", JVal.jstr "xyz")]
        connection_init_body =
      .ok ⟨some "xyz", .body_random, 0⟩ ∧
    (BodyConn.mk (some "xyz") .body_random 0).req_body_type = .body_random ∧
    (((BodyConn.mk (some "xyz") .body_random 0).req_body_size = 0 →
        json_process_connection_body
            [("type", JVal.jstr "random"), ("content", JVal.jstr "xyz")]
            connection_init_body =
          .error body_size_zero_msg) ∧
      (∀ c₂ w,
        json_process_connection_body
            [("type", JVal.jstr "random"), ("content", JVal.jstr "xyz")]
            connection_init_body =
          .ok (c₂, w) →
        c₂.req_body = none ∧
          ((BodyConn.mk (some "xyz") .body_random 0).req_body.isSome → w = true))) :=
  ⟨rfl, rfl,
    claim6_body_random [("type", JVal.jstr "random"), ("content", JVal.jstr "xyz")]
      connection_init_body ⟨some "xyz", .body_random, 0⟩ rfl rfl⟩

/-- The format_bytes loop is the identity once the value is at most 1024. -/
theorem format_bytes_go_of_le (f : ℕ) (n : ℚ) (p : ℕ) (h : n ≤ 1024) :
    format_bytes_go f n p = (n, p) := by
  cases f with
  | zero => rfl
  | succ f => rw [format_bytes_go, if_neg (not_lt.2 h)]

/-- A closed instance of the loop identity for the audit. -/
theorem format_bytes_go_of_le_witness :
    (512 : ℚ) ≤ 1024 ∧ format_bytes_go 64 (512 : ℚ) 0 = (512, 0) :=
  ⟨by norm_num, format_bytes_go_of_le 64 512 0 (by norm_num)⟩

/-- The format_bytes loop divides by 1024 exactly k times, where k is
the least exponent bringing the value to at most 1024; the suffix
offset advances in step as long as it stays within the table. -/
theorem format_bytes_go_spec (b : ℕ) : ∀ (f : ℕ) (n : ℚ) (p : ℕ),
    b ≤ f → 0 ≤ n → n ≤ 1024 ^ b → p + b ≤ 9 →
    ∃ k, k ≤ b ∧ format_bytes_go f n p = (n / 1024 ^ k, p + k) ∧
      n / 1024 ^ k ≤ 1024 ∧ ∀ j, j < k → 1024 < n / 1024 ^ j := by
  induction b with
  | zero =>
    intro f n p _ _ hb _
    refine ⟨0, le_refl 0, ?_, ?_, by omega⟩
    · rw [format_bytes_go_of_le f n p (by norm_num at hb ⊢; linarith)]
      norm_num
    · norm_num at hb ⊢
      linarith
  | succ b ih =>
    intro f n p hf h0 hb hp
    by_cases hn : 1024 < n
    · obtain ⟨f', rfl⟩ : ∃ f', f = f' + 1 := ⟨f - 1, by omega⟩
      have hlen : (0 : ℕ) + 1 ≤ 9 := by omega
      have hplt : p < fb_suffixes.length := by
        simp only [fb_suffixes, List.length]
        omega
      rw [format_bytes_go, if_pos hn, if_pos hplt]
      have hdiv : n / 1024 ≤ 1024 ^ b := by
        rw [div_le_iff₀ (by norm_num : (0 : ℚ) < 1024)]
        calc n ≤ 1024 ^ (b + 1) := hb
          _ = 1024 ^ b * 1024 := by ring
      obtain ⟨k', hk'b, heq, hle, hmin⟩ :=
        ih f' (n / 1024) (p + 1) (by omega)
          (div_nonneg h0 (by norm_num)) hdiv (by omega)
      have hpow : ∀ j : ℕ, n / 1024 / 1024 ^ j = n / 1024 ^ (j + 1) := by
        intro j
        rw [div_div, ← pow_succ']
      refine ⟨k' + 1, by omega, ?_, ?_, ?_⟩
      · rw [heq, hpow]
        refine congrArg _ ?_
        omega
      · rw [← hpow]
        exact hle
      · intro j hj
        cases j with
        | zero => simpa using hn
        | succ j' =>
          rw [← hpow]
          exact hmin j' (by omega)
    · push_neg at hn
      refine ⟨0, by omega, ?_, by simpa using hn, by omega⟩
      rw [format_bytes_go_of_le f n p hn]
      norm_num

/-- A closed instance of the loop characterisation for the audit. -/
theorem format_bytes_go_spec_witness :
    (2 : ℕ) ≤ 64 ∧ (0 : ℚ) ≤ 5000 ∧ (5000 : ℚ) ≤ 1024 ^ 2 ∧ (0 : ℕ) + 2 ≤ 9 ∧
      ∃ k, k ≤ 2 ∧ format_bytes_go 64 (5000 : ℚ) 0 = (5000 / 1024 ^ k, 0 + k) ∧
        (5000 : ℚ) / 1024 ^ k ≤ 1024 ∧ ∀ j, j < k → 1024 < (5000 : ℚ) / 1024 ^ j :=
  ⟨by norm_num, by norm_num, by norm_num, by norm_num,
    format_bytes_go_spec 2 64 5000 0 (by norm_num) (by norm_num) (by norm_num) (by norm_num)⟩

/-- C9: for every byte count below 2^64, format_bytes divides by 1024
the least number k of times that brings the mantissa to at most 1024,
prints that mantissa with the k-th IEC suffix (the suffix offset stays
inside the table), and an exact boundary is not scaled: 1024 keeps
mantissa 1024 with suffix offset 0 (printed 1024.00B), so the printed
mantissa can equal 1024. -/
theorem claim9_format_bytes (n : ℕ) (h : n < 2 ^ 64) :
    (format_bytes n).1 = (n : ℚ) / 1024 ^ (format_bytes n).2 ∧
    (format_bytes n).1 ≤ 1024 ∧
    (∀ j, j < (format_bytes n).2 → 1024 < (n : ℚ) / 1024 ^ j) ∧
    (format_bytes n).2 < fb_suffixes.length ∧
    format_bytes (1024 : ℚ) = (1024, 0) := by
  have hb : (n : ℚ) ≤ 1024 ^ 7 := by
    have : (n : ℚ) < 2 ^ 64 := by exact_mod_cast h
    calc (n : ℚ) ≤ 2 ^ 64 := le_of_lt this
      _ ≤ 1024 ^ 7 := by norm_num
  obtain ⟨k, hk, heq, hle, hmin⟩ :=
    format_bytes_go_spec 7 64 (n : ℚ) 0 (by norm_num) (by positivity) hb (by norm_num)
  rw [zero_add] at heq
  have hfmt : format_bytes (n : ℚ) = ((n : ℚ) / 1024 ^ k, k) := heq
  refine ⟨?_, ?_, ?_, ?_, ?_⟩
  · rw [hfmt]
  · rw [hfmt]
    exact hle
  · rw [hfmt]
    exact hmin
  · rw [hfmt]
    simp only [fb_suffixes, List.length]
    omega
  · rw [format_bytes, format_bytes_go_of_le 64 1024 0 (by norm_num)]

/-- C9, witness: the byte count 5000 is below 2^64 and satisfies the
characterisation. -/
theorem claim9_format_bytes_witness :
    5000 < 2 ^ 64 ∧
      ((format_bytes 5000).1 = ((5000 : ℕ) : ℚ) / 1024 ^ (format_bytes 5000).2 ∧
       (format_bytes 5000).1 ≤ 1024 ∧
       (∀ j, j < (format_bytes 5000).2 → 1024 < ((5000 : ℕ) : ℚ) / 1024 ^ j) ∧
       (format_bytes 5000).2 < fb_suffixes.length ∧
       format_bytes (1024 : ℚ) = (1024, 0)) :=
  ⟨by norm_num, by exact_mod_cast claim9_format_bytes 5000 (by norm_num)⟩

/-- C1: seeds of random-body buffers are not a function of the template
index. The two distinct templates below (differing in host) both list
the body key first, so request_initialize_body_random seeds both with
the key position 0 (state = 0), giving identical payload seeds; a
primary whose body key sits at position 1 even collides with the first
duplicate sibling of any template. -/
theorem claim1_seed_collision :
    ([(("body" : String), JVal.jobj), ("host", JVal.jstr "a")] ≠
      [(("body" : String), JVal.jobj), ("host", JVal.jstr "b")]) ∧
    primary_body_seed [(("body" : String), JVal.jobj), ("host", JVal.jstr "a")] = some 0 ∧
    primary_body_seed [(("body" : String), JVal.jobj), ("host", JVal.jstr "b")] = some 0 ∧
    primary_body_seed [("host", JVal.jstr "a"), (("body" : String), JVal.jobj)] =
      some (duplicate_body_seed 1) := by
  refine ⟨by decide, rfl, rfl, rfl⟩

end Mb
